import Mathlib

/-!
# Verification of the payment-gated content-generation transaction

Shallow embedding of the core routes of the `teachanythingnow` repository:

* `src/app/api/generate/route.ts` — the generation transaction coordinator
  (validation, atomic payment consumption, synthesis orchestration,
  package recording);
* `src/app/api/download/route.ts` — the three download-route variants
  found side by side in the source;
* `src/app/api/payment/create/route.ts` — payment-intent creation;
* `src/lib/audio-generator.ts` — audio synthesis (throws on failure).

Databases are modelled as association lists, Supabase conditional updates
as list transformations, thrown JS exceptions as `Except.error`, and the
external providers (Stripe, OpenAI, storage) as explicit environment data.
-/

namespace TeachAnything

/-- Opaque binary artifact contents (buffers are never inspected by the
coordinator, only moved around). -/
abbrev Buf := String

/-- Row of the `users` table (fields used by the routes). -/
structure UserRow where
  id : String
  email : String
  stripe_customer_id : Option String
deriving DecidableEq, Repr

/-- Row of the `payments` table (fields used by the routes).
`used_at` is the consumption timestamp: `none` means not yet redeemed. -/
structure PaymentRow where
  id : String
  user_id : String
  stripe_payment_intent_id : String
  amount : Nat
  currency : String
  status : String
  used_at : Option Nat
  updated_at : Option Nat
deriving DecidableEq, Repr

/-- A Stripe payment intent as retrieved from the ledger
(`stripe.paymentIntents.retrieve`). -/
structure StripeIntent where
  status : String
  amount : Nat
  currency : String
  customer : Option String
deriving DecidableEq, Repr

/-- Structured lesson content returned by `generateContent`. -/
structure ContentData where
  slides : String
  podcastScript : String
  worksheetQs : String
deriving DecidableEq, Repr

/-- The `files` object built by the generate route (response payload and
`packages.files` column). -/
structure FilesData where
  presentation : String
  audio : String
  worksheet : String
  answerSheet : String
  images : List String
deriving DecidableEq, Repr

/-- Row of the `packages` table (fields used by the routes). -/
structure PackageRow where
  user_id : String
  payment_id : Option String
  topic : String
  file_id : String
  files : FilesData
deriving DecidableEq, Repr

/-- Environment of one generate request: external collaborators
(user table snapshot, Stripe ledger, synthesis providers) and the clock.
Each provider call is modelled by its outcome; `Except.error` models a
thrown exception. -/
structure GenEnv where
  users : List UserRow
  intents : List (String × StripeIntent)
  contentRes : Except String ContentData
  pptRes : Except String Buf
  audioRes : Except String Buf
  worksheetRes : Except String Buf
  answersRes : Except String Buf
  imagesRes : Except String (List Buf)
  insertRes : Except String Unit
  now : Nat
deriving Repr

/-- Outcome of one generate request, mirroring the route's distinct
`NextResponse.json` returns. -/
inductive GenOutcome where
  | unauthorized
  | topicRequired
  | topicTooLong
  | topicTooShort
  | paymentRequired
  | intentNotFound
  | paymentNotCompleted
  | invalidAmount
  | invalidCurrency
  | customerMismatch
  | userNotFound
  | paymentRowMissing
  | paymentAlreadyUsed
  | paymentAlreadyUsedRace
  | generationFailed (msg : String)
  | success (files : FilesData)
deriving DecidableEq, Repr

/-- HTTP status attached to each outcome by the route. -/
def genStatus : GenOutcome → Nat
  | .unauthorized => 401
  | .topicRequired => 400
  | .topicTooLong => 400
  | .topicTooShort => 400
  | .paymentRequired => 402
  | .intentNotFound => 402
  | .paymentNotCompleted => 402
  | .invalidAmount => 402
  | .invalidCurrency => 402
  | .customerMismatch => 403
  | .userNotFound => 404
  | .paymentRowMissing => 403
  | .paymentAlreadyUsed => 403
  | .paymentAlreadyUsedRace => 403
  | .generationFailed _ => 500
  | .success _ => 200

/-- JS `toLowerCase()` on a string, character by character (list-level so
that the kernel can evaluate it). -/
def strToLower (s : String) : String :=
  String.mk (s.toList.map Char.toLower)

/-- JS `trim()` on a string: strip leading and trailing whitespace
(list-level so that the kernel can evaluate it). -/
def strTrim (s : String) : String :=
  String.mk (((s.toList.dropWhile Char.isWhitespace).reverse.dropWhile
    Char.isWhitespace).reverse)

/-- Lookup `supabase.from("users").select(...).eq("email", em).single()`. -/
def findUser (users : List UserRow) (em : String) : Option UserRow :=
  users.find? (fun u => u.email == em)

/-- Retrieval `stripe.paymentIntents.retrieve(pid)`; `none` models the thrown
"payment not found" error. -/
def retrieveIntent (intents : List (String × StripeIntent)) (pid : String) :
    Option StripeIntent :=
  (intents.find? (fun q => q.1 == pid)).map (·.2)

/-- Predicate of the payments-table filters
`.eq("stripe_payment_intent_id", pid).eq("user_id", uid)`. -/
def paymentMatches (pid uid : String) (r : PaymentRow) : Bool :=
  r.stripe_payment_intent_id == pid && r.user_id == uid

/-- The `EXPECTED_AMOUNT` constant of the generate route (£1.00 = 100 pence). -/
def EXPECTED_AMOUNT : Nat := 100

/-- Context accumulated by a fully successful validation pass
(route lines 17–130). -/
structure ValidCtx where
  email : String
  sanitizedTopic : String
  pid : String
  user : UserRow
  intent : StripeIntent
  payment : PaymentRow
deriving Repr

/-- The validation chain of the generate route (lines 17–130), in source
order: session check; topic presence/length; payment-intent-id presence/
length; user lookup; Stripe retrieve; status, amount, currency, customer
checks; local payment-row lookup; `used_at` pre-check. Returns the error
outcome of the first failing check, or the validated context. -/
def validateGen (env : GenEnv) (payments : List PaymentRow)
    (emailOpt topicOpt pidOpt : Option String) : Except GenOutcome ValidCtx :=
  match emailOpt with
  | none => .error .unauthorized
  | some em =>
    if em.length = 0 then .error .unauthorized
    else
      match topicOpt with
      | none => .error .topicRequired
      | some t =>
        let st := strTrim t
        if st.length = 0 then .error .topicRequired
        else if st.length > 500 then .error .topicTooLong
        else if st.length < 3 then .error .topicTooShort
        else
          match pidOpt with
          | none => .error .paymentRequired
          | some pid =>
            if pid.length = 0 ∨ pid.length > 255 then .error .paymentRequired
            else
              match findUser env.users em with
              | none => .error .userNotFound
              | some user =>
                match retrieveIntent env.intents pid with
                | none => .error .intentNotFound
                | some intent =>
                  if intent.status ≠ "succeeded" then .error .paymentNotCompleted
                  else if intent.amount ≠ EXPECTED_AMOUNT then .error .invalidAmount
                  else if strToLower intent.currency ≠ "gbp" then .error .invalidCurrency
                  else if intent.customer ≠ user.stripe_customer_id then .error .customerMismatch
                  else
                    match payments.find? (paymentMatches pid user.id) with
                    | none => .error .paymentRowMissing
                    | some pay =>
                      if pay.used_at.isSome then .error .paymentAlreadyUsed
                      else .ok ⟨em, st, pid, user, intent, pay⟩

/-- Route lines 132–139: set `status` to `"succeeded"` on the matching
payment rows (does not touch `used_at`). -/
def fixStatus (payments : List PaymentRow) (pid uid : String) : List PaymentRow :=
  payments.map (fun r =>
    if paymentMatches pid uid r then { r with status := "succeeded" } else r)

/-- Route lines 141–153: the atomic conditional consumption update
`update({used_at: now, updated_at: now}).eq(pid).eq(uid).is("used_at", null)
.select().single()`. Returns the updated table and the updated row
(`none` when zero rows were affected, i.e. the payment was already used). -/
def casConsume (payments : List PaymentRow) (pid uid : String) (now : Nat) :
    List PaymentRow × Option PaymentRow :=
  match payments.find? (fun r => paymentMatches pid uid r && r.used_at == none) with
  | none => (payments, none)
  | some r =>
    (payments.map (fun q =>
      if paymentMatches pid uid q && q.used_at == none then
        { q with used_at := some now, updated_at := some now } else q),
     some { r with used_at := some now, updated_at := some now })

/-- Character sanitization of `replace(/[^a-z0-9_]/g, "_")`: characters
outside `[a-z0-9_]` are replaced by an underscore. -/
def sanitizeChar (c : Char) : Char :=
  if ('a' ≤ c ∧ c ≤ 'z') ∨ ('0' ≤ c ∧ c ≤ '9') ∨ c = '_' then c else '_'

/-- Sanitization `sanitizedTopic.toLowerCase().replace(/[^a-z0-9_]/g, "_").substring(0, 50)`
(route line 189). -/
def sanitizeForFileId (st : String) : String :=
  String.mk ((((strToLower st).toList).map sanitizeChar).take 50)

/-- Fuel-driven decimal conversion (structural recursion on the fuel so
that the kernel can evaluate it). -/
def decDigitsAux : Nat → Nat → List Char
  | 0, _ => []
  | fuel + 1, n =>
    if n < 10 then [Char.ofNat (48 + n)]
    else decDigitsAux fuel (n / 10) ++ [Char.ofNat (48 + n % 10)]

/-- Decimal digit characters of a natural number (the `${timestamp}`
interpolation). -/
def decDigits (n : Nat) : List Char :=
  decDigitsAux (n + 1) n

/-- Route line 189: `` fileId = `${sanitized}_${timestamp}` ``. -/
def makeFileId (st : String) (timestamp : Nat) : String :=
  sanitizeForFileId st ++ "_" ++ String.mk (decDigits timestamp)

/-- Image artifact filenames `` `${fileId}_image_${i + 1}.png` `` for the
`k` downloaded image buffers (route lines 222–228). -/
def imageNames (fid : String) (k : Nat) : List String :=
  (List.range k).map (fun i => fid ++ "_image_" ++ String.mk (decDigits (i + 1)) ++ ".png")

/-- The post-consumption synthesis phase (route lines 179–244): content,
presentation, audio, worksheet, answer sheet in order — any failure
propagates (thrown exception) — then images inside their own `try/catch`
whose failure only yields an empty image list. -/
def synthPhase (env : GenEnv) (sanitizedTopic : String) : Except String FilesData :=
  match env.contentRes with
  | .error e => .error e
  | .ok _ =>
    let fid := makeFileId sanitizedTopic env.now
    match env.pptRes with
    | .error e => .error e
    | .ok _ =>
      match env.audioRes with
      | .error e => .error e
      | .ok _ =>
        match env.worksheetRes with
        | .error e => .error e
        | .ok _ =>
          match env.answersRes with
          | .error e => .error e
          | .ok _ =>
            let imgs :=
              match env.imagesRes with
              | .error _ => []
              | .ok bufs => imageNames fid bufs.length
            .ok { presentation := fid ++ ".pptx"
                  audio := fid ++ ".mp3"
                  worksheet := fid ++ "_worksheet.docx"
                  answerSheet := fid ++ "_answers.pdf"
                  images := imgs }

/-- Route lines 246–267: best-effort package insert; a failure is caught
and logged and leaves the packages table unchanged. -/
def insertPackage (env : GenEnv) (payments2 : List PaymentRow)
    (packages : List PackageRow) (ctx : ValidCtx) (files : FilesData) :
    List PackageRow :=
  match env.insertRes with
  | .error _ => packages
  | .ok _ =>
    let payRow := payments2.find? (paymentMatches ctx.pid ctx.user.id)
    packages ++ [{ user_id := ctx.user.id
                   payment_id := payRow.map (·.id)
                   topic := ctx.sanitizedTopic
                   file_id := makeFileId ctx.sanitizedTopic env.now
                   files := files }]

/-- The whole `POST /api/generate` handler as a pure transition on the
`payments` and `packages` tables. The outer `try/catch` maps any thrown
synthesis error to the 500 `generationFailed` outcome. -/
def genPOST (env : GenEnv) (payments : List PaymentRow)
    (packages : List PackageRow) (emailOpt topicOpt pidOpt : Option String) :
    GenOutcome × List PaymentRow × List PackageRow :=
  match validateGen env payments emailOpt topicOpt pidOpt with
  | .error o => (o, payments, packages)
  | .ok ctx =>
    let payments1 :=
      if ctx.payment.status ≠ "succeeded" then fixStatus payments ctx.pid ctx.user.id
      else payments
    match casConsume payments1 ctx.pid ctx.user.id env.now with
    | (payments2, none) => (.paymentAlreadyUsedRace, payments2, packages)
    | (payments2, some _) =>
      match synthPhase env ctx.sanitizedTopic with
      | .error e => (.generationFailed e, payments2, packages)
      | .ok files =>
        (.success files, payments2, insertPackage env payments2 packages ctx files)

/-! ## Download route (`src/app/api/download/route.ts`)

The source file holds three GET-handler variants side by side:
variant 1 (no authentication, serve any existing temp file), variant 2
(strict package-ownership check, storage-backed), and variant 3
(package-ownership check with a "recent file" fallback, temp-dir-backed).
All three share the filename extraction rule below. -/

/-- Longest-first nonempty prefixes of the leading run of non-underscore
characters of `cs`, each paired with the rest of `cs` (the backtracking
choice points of a greedy `[^_]+`). -/
def nonUsSplits (cs : List Char) : List (List Char × List Char) :=
  let r := cs.takeWhile (fun c => c ≠ '_')
  (List.range r.length).map (fun i =>
    let n := r.length - i
    (r.take n, cs.drop n))

/-- Does `cs` start with `(?:_(?:worksheet|answers|image_\d+))?\.`
(the tail of the file-id extraction regex)? -/
def sfxDot (cs : List Char) : Bool :=
  "_worksheet.".toList.isPrefixOf cs ||
  "_answers.".toList.isPrefixOf cs ||
  ("_image_".toList.isPrefixOf cs &&
    (let rest := cs.drop 7
     let ds := rest.takeWhile Char.isDigit
     decide (ds ≠ []) && ((rest.drop ds.length).head? == some '.'))) ||
  cs.head? == some '.'

/-- First successful result in a list of lazy alternatives. -/
def firstSome {α β : Type} (xs : List α) (f : α → Option β) : Option β :=
  match xs with
  | [] => none
  | x :: rest =>
    match f x with
    | some b => some b
    | none => firstSome rest f

/-- The lazy `(?:_[^_]+)*?` loop of the extraction regex: `acc` is the
group-1 text matched so far, `cs` the remaining input. Zero further
iterations are preferred (checked first via `sfxDot`); each iteration
consumes an underscore and a greedy nonempty non-underscore segment. -/
def matchLazy : Nat → List Char → List Char → Option (List Char)
  | 0, _, _ => none
  | fuel + 1, acc, cs =>
    if sfxDot cs then some acc
    else
      match cs with
      | '_' :: cs' =>
        firstSome (nonUsSplits cs') (fun sr =>
          matchLazy fuel (acc ++ '_' :: sr.1) sr.2)
      | _ => none

/-- Group 1 of `/^([^_]+(?:_[^_]+)*?)(?:_(?:worksheet|answers|image_\d+))?\./`
applied to `cs`, or `none` when the regex does not match. The leading
`[^_]+` is greedy (longest first with backtracking), the following loop
lazy. -/
def regexFileId (cs : List Char) : Option (List Char) :=
  firstSome (nonUsSplits cs) (fun ar =>
    matchLazy (cs.length + 1) ar.1 ar.2)

/-- File-id extraction of the download route (lines 95–96):
`filename.match(regex)` and, when the regex does not match, the fallback
`filename.split('.')[0]`. -/
def extractFileId (filename : String) : String :=
  match regexFileId filename.toList with
  | some g1 => String.mk g1
  | none => String.mk (filename.toList.takeWhile (fun c => c ≠ '.'))

/-- Directory-traversal guard of every download-route variant:
`filename.includes("..") || filename.includes("/") || filename.includes("\\")`. -/
def hasTraversal (filename : String) : Bool :=
  decide ("..".toList <:+: filename.toList) ||
  filename.toList.contains '/' ||
  filename.toList.contains '\\'

/-- Environment of a download request: user and package tables, the
`temp` directory (filename, mtime in ms), the storage bucket, the clock. -/
structure DlEnv where
  users : List UserRow
  packages : List PackageRow
  tempFiles : List (String × Nat)
  storage : List (String × Buf)
  nowMs : Nat
deriving Repr

/-- Outcome of a download request, mirroring the routes' distinct
responses. -/
inductive DlOutcome where
  | unauthorizedDl
  | filenameRequired
  | invalidFilename
  | userNotFoundDl
  | accessDenied
  | fileNotFound
  | fileOk (filename : String) (content : Buf)
deriving DecidableEq, Repr

/-- HTTP status of each download outcome. -/
def dlStatus : DlOutcome → Nat
  | .unauthorizedDl => 401
  | .filenameRequired => 400
  | .invalidFilename => 400
  | .userNotFoundDl => 404
  | .accessDenied => 403
  | .fileNotFound => 404
  | .fileOk _ _ => 200

/-- Result of a download-handler run: the response plus whether the
temp directory (`existsSync`/`readFile`/`stat`) or the storage bucket
(`downloadFromStorage`) was ever touched. -/
structure DlResult where
  outcome : DlOutcome
  fsAccessed : Bool
  storageAccessed : Bool
deriving DecidableEq, Repr

/-- Serving a file from the temp directory (`existsSync` + `readFile`);
contents are modelled as the filename itself. -/
def serveTemp (env : DlEnv) (fn : String) : DlResult :=
  match env.tempFiles.find? (fun q => q.1 == fn) with
  | none => ⟨.fileNotFound, true, false⟩
  | some _ => ⟨.fileOk fn fn, true, false⟩

/-- Download-route variant 1 (lines 6–53): no authentication, no
ownership check; any existing temp file is served. -/
def downloadV1 (env : DlEnv) (filenameOpt : Option String) : DlResult :=
  match filenameOpt with
  | none => ⟨.filenameRequired, false, false⟩
  | some fn =>
    if fn.length = 0 then ⟨.filenameRequired, false, false⟩
    else if hasTraversal fn then ⟨.invalidFilename, false, false⟩
    else serveTemp env fn

/-- Download-route variant 2 (lines 63–152): authentication, strict
package-ownership check on the extracted file id — "No fallback to
recent files" — then storage download. -/
def downloadV2 (env : DlEnv) (emailOpt filenameOpt : Option String) : DlResult :=
  match emailOpt with
  | none => ⟨.unauthorizedDl, false, false⟩
  | some em =>
    if em.length = 0 then ⟨.unauthorizedDl, false, false⟩
    else
      match filenameOpt with
      | none => ⟨.filenameRequired, false, false⟩
      | some fn =>
        if fn.length = 0 then ⟨.filenameRequired, false, false⟩
        else if hasTraversal fn then ⟨.invalidFilename, false, false⟩
        else
          match findUser env.users em with
          | none => ⟨.userNotFoundDl, false, false⟩
          | some user =>
            let fid := extractFileId fn
            match env.packages.find? (fun p => p.user_id == user.id && p.file_id == fid) with
            | none => ⟨.accessDenied, false, false⟩
            | some _ =>
              match env.storage.find? (fun q => q.1 == fn) with
              | none => ⟨.fileNotFound, false, true⟩
              | some q => ⟨.fileOk fn q.2, false, true⟩

/-- Download-route variant 3 (lines 163–260): authentication and
package-ownership check, but with two weaker paths: a missing user row
skips the ownership check entirely, and a missing package falls back to
serving any temp file modified within the last hour. -/
def downloadV3 (env : DlEnv) (emailOpt filenameOpt : Option String) : DlResult :=
  match emailOpt with
  | none => ⟨.unauthorizedDl, false, false⟩
  | some em =>
    if em.length = 0 then ⟨.unauthorizedDl, false, false⟩
    else
      match filenameOpt with
      | none => ⟨.filenameRequired, false, false⟩
      | some fn =>
        if fn.length = 0 then ⟨.filenameRequired, false, false⟩
        else if hasTraversal fn then ⟨.invalidFilename, false, false⟩
        else
          match findUser env.users em with
          | none => serveTemp env fn
          | some user =>
            let fid := extractFileId fn
            match env.packages.find? (fun p => p.user_id == user.id && p.file_id == fid) with
            | some _ => serveTemp env fn
            | none =>
              match env.tempFiles.find? (fun q => q.1 == fn) with
              | none => ⟨.fileNotFound, true, false⟩
              | some q =>
                if q.2 > env.nowMs - 3600000 then
                  match env.tempFiles.find? (fun p => p.1 == fn) with
                  | none => ⟨.fileNotFound, true, false⟩
                  | some _ => ⟨.fileOk fn fn, true, false⟩
                else ⟨.accessDenied, true, false⟩

/-! ## Payment creation (`src/app/api/payment/create/route.ts`) -/

/-- The payment intent created by `stripe.paymentIntents.create` at
lines 32–43: `amount: 100, currency: "gbp", customer: customerId`.
`status` is whatever the ledger later reports for it (initially pending,
`"succeeded"` after confirmation); amount, currency and customer are
fixed at creation. -/
def createdIntent (customerId : String) (status : String) : StripeIntent :=
  { status := status, amount := 100, currency := "gbp", customer := some customerId }

/-- The local payment row inserted at lines 53–63:
`amount: 100, currency: "gbp", status: "pending"`, `used_at` unset. -/
def createdPaymentRow (rowId userId intentId _customerId _topic : String) : PaymentRow :=
  { id := rowId
    user_id := userId
    stripe_payment_intent_id := intentId
    amount := 100
    currency := "gbp"
    status := "pending"
    used_at := none
    updated_at := none }

/-! ## Interleaved consumption model (route lines 109–162)

For the at-most-one-redemption property the read (line 109), the
`used_at` pre-check (line 124) and the conditional update (lines
141–153) of `N` concurrent requests for the same payment row are
modelled as a small-step transition system: each request first reads a
snapshot of the row, then either fails the pre-check or issues the
conditional update, which atomically re-tests `used_at` against the
current (not the snapshotted) state. -/

/-- Terminal outcome of one concurrent request in the consumption
fragment. `.success` means the conditional update affected the row and
the request proceeds to synthesis (route line 164 onward);
`.alreadyUsedPre` is the 403 of line 124, `.alreadyUsedRace` the 403 of
line 155. -/
inductive ConsumeOutcome where
  | success
  | alreadyUsedPre
  | alreadyUsedRace
deriving DecidableEq, Repr

/-- HTTP status of each consumption outcome (both failure branches
return 403 with the "already been used" message). -/
def consumeStatus : ConsumeOutcome → Nat
  | .success => 200
  | .alreadyUsedPre => 403
  | .alreadyUsedRace => 403

/-- Does a request with this outcome perform synthesis? Only the winner
of the conditional update reaches the synthesis code. -/
def proceedsToSynthesis : ConsumeOutcome → Bool
  | .success => true
  | .alreadyUsedPre => false
  | .alreadyUsedRace => false

/-- Phase of one request in the consumption fragment. -/
inductive ReqPhase where
  | start
  | readDone (snapshotUsedAt : Option Nat)
  | done (out : ConsumeOutcome)
deriving DecidableEq, Repr

/-- Shared state: the payment row's `used_at` column plus each request's
phase. -/
structure ConsState where
  used_at : Option Nat
  procs : List ReqPhase
deriving DecidableEq, Repr

/-- Initial state for `n` concurrent requests against a not-yet-redeemed
payment row. -/
def initCons (n : Nat) : ConsState :=
  ⟨none, List.replicate n .start⟩

/-- One interleaving step: some request reads its snapshot, fails the
pre-check on a non-null snapshot, or issues the atomic conditional
update, which succeeds exactly when `used_at` is null at update time. -/
inductive ConsStep : ConsState → ConsState → Prop where
  | read (s : ConsState) (i : Nat)
      (h : s.procs[i]? = some .start) :
      ConsStep s { s with procs := s.procs.set i (.readDone s.used_at) }
  | preFail (s : ConsState) (i : Nat) (t : Nat)
      (h : s.procs[i]? = some (.readDone (some t))) :
      ConsStep s { s with procs := s.procs.set i (.done .alreadyUsedPre) }
  | casWin (s : ConsState) (i : Nat) (tnow : Nat)
      (h : s.procs[i]? = some (.readDone none))
      (hu : s.used_at = none) :
      ConsStep s { used_at := some tnow, procs := s.procs.set i (.done .success) }
  | casLose (s : ConsState) (i : Nat) (t : Nat)
      (h : s.procs[i]? = some (.readDone none))
      (hu : s.used_at = some t) :
      ConsStep s { s with procs := s.procs.set i (.done .alreadyUsedRace) }

/-- Any interleaving of the consumption fragment. -/
def ConsSteps : ConsState → ConsState → Prop :=
  Relation.ReflTransGen ConsStep

/-- The filename-safe character set `[a-z0-9_]` of the spec. -/
def allowedChar (c : Char) : Bool :=
  decide (('a' ≤ c ∧ c ≤ 'z') ∨ ('0' ≤ c ∧ c ≤ '9') ∨ c = '_')

/-- Modelled from the spec (§6), for comparison with the source rule:
the sanitized topic with every character outside `[a-z0-9_]` REMOVED
(the spec's wording), truncated to 50, then `_` and the timestamp. -/
def specRemovalFileId (st : String) (ts : Nat) : String :=
  String.mk ((((strToLower st).toList).filter allowedChar).take 50) ++
    "_" ++ String.mk (decDigits ts)

/-- The topic guards of route lines 28–40, all passing. -/
def topicOK (t : String) : Prop :=
  (strTrim t).length ≠ 0 ∧ ¬(strTrim t).length > 500 ∧ ¬(strTrim t).length < 3

/-- The payment-intent-id guard of route line 42, passing. -/
def pidOK (pid : String) : Prop :=
  ¬(pid.length = 0 ∨ pid.length > 255)

instance (t : String) : Decidable (topicOK t) := by
  unfold topicOK
  exact inferInstance

instance (pid : String) : Decidable (pidOK pid) := by
  unfold pidOK
  exact inferInstance

/-- The payments table after the conditional consumption update of route
lines 141–153 has been applied. -/
def consumedList (ps : List PaymentRow) (pid uid : String) (now : Nat) :
    List PaymentRow :=
  ps.map (fun q =>
    if paymentMatches pid uid q && q.used_at == none then
      { q with used_at := some now, updated_at := some now } else q)

/-! ## Concrete fixtures -/

/-- A demo user. -/
def demoUser : UserRow := ⟨"u1", "a@b.com", some "cus_1"⟩

/-- A demo not-yet-consumed payment row for intent `pi_1`. -/
def demoPayment : PaymentRow :=
  ⟨"pay1", "u1", "pi_1", 100, "gbp", "succeeded", none, none⟩

/-- A demo succeeded ledger intent with the given amount and currency,
owned by the demo user's billing customer. -/
def demoIntent (amount : Nat) (currency : String) : StripeIntent :=
  ⟨"succeeded", amount, currency, some "cus_1"⟩

/-- A demo generate-request environment around a given ledger intent,
with all synthesis providers succeeding. -/
def demoGenEnv (intent : StripeIntent) : GenEnv :=
  { users := [demoUser]
    intents := [("pi_1", intent)]
    contentRes := .ok ⟨"slides", "script", "questions"⟩
    pptRes := .ok "pptbuf"
    audioRes := .ok "mp3buf"
    worksheetRes := .ok "wsbuf"
    answersRes := .ok "ansbuf"
    imagesRes := .ok ["img1"]
    insertRes := .ok ()
    now := 7 }

/-- Environment exhibiting the recent-file fallback: the caller owns no
package at all, yet `stolen_175.pptx` sits in the temp directory with a
recent modification time. -/
def fallbackEnv : DlEnv :=
  { users := [demoUser]
    packages := []
    tempFiles := [("stolen_175.pptx", 999999)]
    storage := []
    nowMs := 1000000 }

/-- Invariant of the interleaved consumption model: while `used_at` is
still null no request has succeeded, and at most one request ever holds
the `success` outcome. -/
structure ConsInv (s : ConsState) : Prop where
  nullNoSuccess : s.used_at = none →
    ∀ ph ∈ s.procs, ph ≠ ReqPhase.done ConsumeOutcome.success
  atMostOne : ∀ i j : Nat,
    s.procs[i]? = some (ReqPhase.done ConsumeOutcome.success) →
    s.procs[j]? = some (ReqPhase.done ConsumeOutcome.success) → i = j

/-! ## Helper lemmas -/

theorem allowedChar_sanitizeChar (c : Char) : allowedChar (sanitizeChar c) = true := by
  unfold sanitizeChar allowedChar
  split
  · rename_i h
    exact decide_eq_true h
  · decide

theorem decDigitsAux_digit : ∀ fuel n c, c ∈ decDigitsAux fuel n → ('0' ≤ c ∧ c ≤ '9') := by
  intro fuel
  induction fuel with
  | zero => intro n c h; simp [decDigitsAux] at h
  | succ f ih =>
    intro n c h
    unfold decDigitsAux at h
    split at h
    · rename_i hlt
      simp only [List.mem_singleton] at h
      subst h
      interval_cases n <;> decide
    · rcases List.mem_append.mp h with h1 | h2
      · exact ih _ _ h1
      · simp only [List.mem_singleton] at h2
        subst h2
        rename_i hge
        have h10 : n % 10 < 10 := Nat.mod_lt _ (by omega)
        set k := n % 10 with hk
        interval_cases k <;> decide

theorem decDigits_digit (n : Nat) (c : Char) (h : c ∈ decDigits n) :
    '0' ≤ c ∧ c ≤ '9' :=
  decDigitsAux_digit _ _ _ h

theorem allowedChar_of_digit (c : Char) (h : '0' ≤ c ∧ c ≤ '9') :
    allowedChar c = true :=
  decide_eq_true (Or.inr (Or.inl h))

/-! ## C6 -/

/-- C6 (amended): the generation identifier is
`{sanitizedTopic}_{timestamp}` where the sanitized topic is the topic
lowercased with every character outside `[a-z0-9_]` REPLACED BY an
underscore (not removed) and truncated to 50 characters; consequently
every character of the identifier lies in `[a-z0-9_]` and the topic part
never exceeds the bound. -/
theorem fileId_charset_and_bound (t : String) (ts : Nat) :
    (makeFileId t ts).toList.all allowedChar = true ∧
    (sanitizeForFileId t).length ≤ 50 ∧
    makeFileId t ts = sanitizeForFileId t ++ "_" ++ String.mk (decDigits ts) := by
  refine ⟨?_, ?_, rfl⟩
  · rw [List.all_eq_true]
    intro c hc
    have hsplit : (makeFileId t ts).toList =
        (((strToLower t).toList).map sanitizeChar).take 50 ++ '_' :: decDigits ts := by
      simp [makeFileId, sanitizeForFileId, String.toList, String.data_append]
    rw [hsplit] at hc
    rcases List.mem_append.mp hc with h1 | h2
    · obtain ⟨d, _, rfl⟩ := List.mem_map.mp (List.mem_of_mem_take h1)
      exact allowedChar_sanitizeChar d
    · rcases List.mem_cons.mp h2 with rfl | h3
      · decide
      · exact allowedChar_of_digit c (decDigits_digit ts c h3)
  · have : (sanitizeForFileId t).length =
        ((((strToLower t).toList).map sanitizeChar).take 50).length := rfl
    rw [this, List.length_take]
    exact min_le_left _ _

/-- C6 counterexample: the claim's stated rule (characters outside
`[a-z0-9_]` removed) disagrees with the source rule (characters replaced
by `_`) already on the topic `"ab c"`. -/
theorem fileId_removal_rule_counterexample :
    makeFileId "ab c" 7 = "ab_c_7" ∧
    specRemovalFileId "ab c" 7 = "abc_7" ∧
    makeFileId "ab c" 7 ≠ specRemovalFileId "ab c" 7 := by
  refine ⟨by decide, by decide, by decide⟩

/-! ## C7 -/

/-- C7: for the topic `"World War II"` and the fixed timestamp
`1712345678901`, the derived generation id consists only of characters
in `[a-z0-9_]`, and every artifact filename built from it under the
fixed convention recovers exactly that id under the download route's
prefix-extraction rule. -/
theorem filename_roundtrip_world_war_ii :
    (makeFileId (strTrim "World War II") 1712345678901).toList.all allowedChar = true ∧
    extractFileId (makeFileId (strTrim "World War II") 1712345678901 ++ ".pptx") =
      makeFileId (strTrim "World War II") 1712345678901 ∧
    extractFileId (makeFileId (strTrim "World War II") 1712345678901 ++ ".mp3") =
      makeFileId (strTrim "World War II") 1712345678901 ∧
    extractFileId (makeFileId (strTrim "World War II") 1712345678901 ++ "_worksheet.docx") =
      makeFileId (strTrim "World War II") 1712345678901 ∧
    extractFileId (makeFileId (strTrim "World War II") 1712345678901 ++ "_answers.pdf") =
      makeFileId (strTrim "World War II") 1712345678901 ∧
    extractFileId (makeFileId (strTrim "World War II") 1712345678901 ++ "_image_1.png") =
      makeFileId (strTrim "World War II") 1712345678901 ∧
    extractFileId (makeFileId (strTrim "World War II") 1712345678901 ++ "_image_2.png") =
      makeFileId (strTrim "World War II") 1712345678901 := by
  refine ⟨by decide, by decide, by decide, by decide, by decide, by decide, by decide⟩

/-! ## C5 -/

/-- C5 counterexample: an otherwise fully valid request whose ledger
intent has amount 200 is rejected without consumption, but with HTTP
status 402, not the 403 category the claim asserts. -/
theorem amount_mismatch_status_counterexample :
    genPOST (demoGenEnv (demoIntent 200 "gbp")) [demoPayment] []
        (some "a@b.com") (some "history of rome") (some "pi_1") =
      (.invalidAmount, [demoPayment], []) ∧
    genStatus .invalidAmount = 402 ∧
    genStatus .invalidAmount ≠ 403 ∧
    demoPayment.used_at = none := by
  refine ⟨by decide, by decide, by decide, by decide⟩

/-- C5 (amended): a ledger intent whose amount differs from the
configured price, or whose currency differs from the configured
currency, is rejected (`invalidAmount`/`invalidCurrency`) without
consuming the payment — but with HTTP status 402, not 403. -/
theorem amount_currency_mismatch_402
    (env : GenEnv) (ps : List PaymentRow) (pk : List PackageRow)
    (em t pid : String) (user : UserRow) (intent : StripeIntent)
    (hem : em.length ≠ 0)
    (ht0 : (strTrim t).length ≠ 0)
    (ht1 : ¬(strTrim t).length > 500)
    (ht2 : ¬(strTrim t).length < 3)
    (hp : ¬(pid.length = 0 ∨ pid.length > 255))
    (hu : findUser env.users em = some user)
    (hi : retrieveIntent env.intents pid = some intent)
    (hs : intent.status = "succeeded") :
    (intent.amount ≠ EXPECTED_AMOUNT →
      genPOST env ps pk (some em) (some t) (some pid) = (.invalidAmount, ps, pk) ∧
      genStatus .invalidAmount = 402) ∧
    (intent.amount = EXPECTED_AMOUNT → strToLower intent.currency ≠ "gbp" →
      genPOST env ps pk (some em) (some t) (some pid) = (.invalidCurrency, ps, pk) ∧
      genStatus .invalidCurrency = 402) := by
  constructor
  · intro hA
    have hv : validateGen env ps (some em) (some t) (some pid) = .error .invalidAmount := by
      simp only [validateGen]
      rw [if_neg hem, if_neg ht0, if_neg ht1, if_neg ht2, if_neg hp, hu, hi]
      simp only [hs]
      rw [if_neg (by simp), if_pos hA]
    exact ⟨by simp only [genPOST, hv], rfl⟩
  · intro hA hC
    have hv : validateGen env ps (some em) (some t) (some pid) = .error .invalidCurrency := by
      simp only [validateGen]
      rw [if_neg hem, if_neg ht0, if_neg ht1, if_neg ht2, if_neg hp, hu, hi]
      simp only [hs]
      rw [if_neg (by simp), if_neg (by simp [hA]), if_pos hC]
    exact ⟨by simp only [genPOST, hv], rfl⟩

/-- C5 witness: the amended theorem applied at a concrete amount-mismatch
input and a concrete currency-mismatch input. -/
theorem amount_currency_mismatch_402_witness :
    (genPOST (demoGenEnv (demoIntent 250 "gbp")) [demoPayment] []
        (some "a@b.com") (some "history of rome") (some "pi_1") =
      (.invalidAmount, [demoPayment], []) ∧ genStatus .invalidAmount = 402) ∧
    (genPOST (demoGenEnv (demoIntent 100 "usd")) [demoPayment] []
        (some "a@b.com") (some "history of rome") (some "pi_1") =
      (.invalidCurrency, [demoPayment], []) ∧ genStatus .invalidCurrency = 402) :=
  ⟨(amount_currency_mismatch_402 (demoGenEnv (demoIntent 250 "gbp")) [demoPayment] []
      "a@b.com" "history of rome" "pi_1" demoUser (demoIntent 250 "gbp")
      (by decide) (by decide) (by decide) (by decide) (by decide)
      (by decide) (by decide) (by decide)).1 (by decide),
   (amount_currency_mismatch_402 (demoGenEnv (demoIntent 100 "usd")) [demoPayment] []
      "a@b.com" "history of rome" "pi_1" demoUser (demoIntent 100 "usd")
      (by decide) (by decide) (by decide) (by decide) (by decide)
      (by decide) (by decide) (by decide)).2 (by decide) (by decide)⟩

/-! ## C10 -/

theorem hasTraversal_length_pos (fn : String) (h : hasTraversal fn = true) :
    fn.length ≠ 0 := by
  intro h0
  have hnil : fn.toList = [] := by
    have : fn.data.length = 0 := h0
    simpa [String.toList] using List.length_eq_zero.mp this
  unfold hasTraversal at h
  rw [String.toList] at hnil
  simp [String.toList, hnil] at h

/-- C10: in every download-route variant, a filename containing `..`,
`/` or `\` is rejected with status 400 (when the filename guard is
reached), and neither the temp directory nor the storage bucket is ever
accessed for such a filename, whatever the session state. -/
theorem traversal_rejected_before_access (env : DlEnv) (fn : String)
    (emO : Option String) (h : hasTraversal fn = true) :
    downloadV1 env (some fn) = ⟨.invalidFilename, false, false⟩ ∧
    (∀ em, em.length ≠ 0 →
      downloadV2 env (some em) (some fn) = ⟨.invalidFilename, false, false⟩) ∧
    (∀ em, em.length ≠ 0 →
      downloadV3 env (some em) (some fn) = ⟨.invalidFilename, false, false⟩) ∧
    (downloadV2 env emO (some fn)).fsAccessed = false ∧
    (downloadV2 env emO (some fn)).storageAccessed = false ∧
    (downloadV3 env emO (some fn)).fsAccessed = false ∧
    (downloadV3 env emO (some fn)).storageAccessed = false ∧
    dlStatus .invalidFilename = 400 := by
  have hlen := hasTraversal_length_pos fn h
  have hv2 : ∀ em, em.length ≠ 0 →
      downloadV2 env (some em) (some fn) = ⟨.invalidFilename, false, false⟩ := by
    intro em hem
    simp only [downloadV2]
    rw [if_neg hem, if_neg hlen, if_pos h]
  have hv3 : ∀ em, em.length ≠ 0 →
      downloadV3 env (some em) (some fn) = ⟨.invalidFilename, false, false⟩ := by
    intro em hem
    simp only [downloadV3]
    rw [if_neg hem, if_neg hlen, if_pos h]
  have hv2acc : (downloadV2 env emO (some fn)).fsAccessed = false ∧
      (downloadV2 env emO (some fn)).storageAccessed = false := by
    cases emO with
    | none => exact ⟨rfl, rfl⟩
    | some em =>
      by_cases hem : em.length = 0
      · simp only [downloadV2, if_pos hem]
        exact ⟨trivial, trivial⟩
      · rw [hv2 em hem]
        exact ⟨rfl, rfl⟩
  have hv3acc : (downloadV3 env emO (some fn)).fsAccessed = false ∧
      (downloadV3 env emO (some fn)).storageAccessed = false := by
    cases emO with
    | none => exact ⟨rfl, rfl⟩
    | some em =>
      by_cases hem : em.length = 0
      · simp only [downloadV3, if_pos hem]
        exact ⟨trivial, trivial⟩
      · rw [hv3 em hem]
        exact ⟨rfl, rfl⟩
  refine ⟨?_, hv2, hv3, hv2acc.1, hv2acc.2, hv3acc.1, hv3acc.2, rfl⟩
  simp only [downloadV1]
  rw [if_neg hlen, if_pos h]

/-- C10 witness: the theorem applied to the concrete traversal filename
`"../../etc/passwd"` with a signed-in session. -/
theorem traversal_rejected_before_access_witness :
    downloadV1 ⟨[demoUser], [], [("../../etc/passwd", 5)], [], 10⟩ (some "../../etc/passwd") =
      ⟨.invalidFilename, false, false⟩ ∧
    (downloadV3 ⟨[demoUser], [], [("../../etc/passwd", 5)], [], 10⟩ (some "a@b.com")
      (some "../../etc/passwd")).fsAccessed = false := by
  have hmain := traversal_rejected_before_access
    ⟨[demoUser], [], [("../../etc/passwd", 5)], [], 10⟩ "../../etc/passwd"
    (some "a@b.com") (by decide)
  exact ⟨hmain.1, hmain.2.2.2.2.2.1⟩

/-! ## C4 -/

/-- C4 (code bug): variant 3 of the download route serves a file whose
derived prefix matches no package owned by the caller, merely because
the file exists on disk and was written within the last hour — the
"allow if recent" fallback the spec forbids. Variant 2 (the strict
rule) rejects the same request with 403. -/
theorem download_recent_file_fallback_bug :
    fallbackEnv.packages = [] ∧
    downloadV3 fallbackEnv (some "a@b.com") (some "stolen_175.pptx") =
      ⟨.fileOk "stolen_175.pptx" "stolen_175.pptx", true, false⟩ ∧
    dlStatus (.fileOk "stolen_175.pptx" "stolen_175.pptx") = 200 ∧
    downloadV2 fallbackEnv (some "a@b.com") (some "stolen_175.pptx") =
      ⟨.accessDenied, false, false⟩ ∧
    dlStatus .accessDenied = 403 := by
  refine ⟨rfl, by decide, rfl, by decide, rfl⟩

/-! ## C1 -/

theorem consInv_set_nonsuccess {s : ConsState} (i : Nat) (v : ReqPhase)
    (hv : v ≠ .done .success) (hinv : ConsInv s) (u : Option Nat)
    (hu : u = none → s.used_at = none) :
    ConsInv ⟨u, s.procs.set i v⟩ := by
  constructor
  · intro hnone ph hph
    rcases List.mem_or_eq_of_mem_set hph with h1 | rfl
    · exact hinv.nullNoSuccess (hu hnone) ph h1
    · exact hv
  · intro a b ha hb
    rw [List.getElem?_set] at ha hb
    by_cases hia : i = a
    · rw [if_pos hia] at ha
      split at ha
      · exact absurd (Option.some.inj ha) hv
      · exact absurd ha (by simp)
    · rw [if_neg hia] at ha
      by_cases hib : i = b
      · rw [if_pos hib] at hb
        split at hb
        · exact absurd (by injection hb) hv
        · exact absurd hb (by simp)
      · rw [if_neg hib] at hb
        exact hinv.atMostOne a b ha hb

theorem consInv_step {s s' : ConsState} (h : ConsStep s s') (hinv : ConsInv s) :
    ConsInv s' := by
  cases h with
  | read i h =>
    exact consInv_set_nonsuccess i _ (by simp) hinv s.used_at (fun h => h)
  | preFail i t h =>
    exact consInv_set_nonsuccess i _ (by simp) hinv s.used_at (fun h => h)
  | casLose i t h hu =>
    exact consInv_set_nonsuccess i _ (by simp) hinv s.used_at (fun h => h)
  | casWin i tnow h hu =>
    constructor
    · intro hnone
      exact absurd hnone (by simp)
    · intro a b ha hb
      have hnosucc : ∀ ph ∈ s.procs, ph ≠ .done .success := hinv.nullNoSuccess hu
      rw [List.getElem?_set] at ha hb
      have hia : i = a := by
        by_contra hne
        rw [if_neg hne] at ha
        exact hnosucc _ (List.getElem?_mem ha) rfl
      have hib : i = b := by
        by_contra hne
        rw [if_neg hne] at hb
        exact hnosucc _ (List.getElem?_mem hb) rfl
      omega

theorem consInv_init (n : Nat) : ConsInv (initCons n) := by
  constructor
  · intro _ ph hph
    rw [List.eq_of_mem_replicate hph]
    simp
  · intro a b ha _
    have : ReqPhase.done .success ∈ List.replicate n ReqPhase.start :=
      List.getElem?_mem ha
    have := List.eq_of_mem_replicate this
    simp at this

theorem consInv_steps {s s' : ConsState} (h : ConsSteps s s') (hinv : ConsInv s) :
    ConsInv s' := by
  induction h with
  | refl => exact hinv
  | tail _ hstep ih => exact consInv_step hstep ih

/-- C1: in any interleaving of `n` concurrent generation requests
against the same not-yet-redeemed payment row, at most one request's
conditional update succeeds and proceeds to synthesis; every request
that finishes otherwise holds a `PaymentAlreadyUsed` outcome with HTTP
status 403 and performs no synthesis. -/
theorem consumption_at_most_once (n : Nat) (s : ConsState)
    (h : ConsSteps (initCons n) s) :
    (∀ i j : Nat, s.procs[i]? = some (ReqPhase.done ConsumeOutcome.success) →
      s.procs[j]? = some (ReqPhase.done ConsumeOutcome.success) → i = j) ∧
    (∀ (i : Nat) (o : ConsumeOutcome), s.procs[i]? = some (ReqPhase.done o) →
      o ≠ ConsumeOutcome.success →
      consumeStatus o = 403 ∧ proceedsToSynthesis o = false) := by
  refine ⟨(consInv_steps h (consInv_init n)).atMostOne, ?_⟩
  intro i o _ ho
  cases o with
  | success => exact absurd rfl ho
  | alreadyUsedPre => exact ⟨rfl, rfl⟩
  | alreadyUsedRace => exact ⟨rfl, rfl⟩

/-- C1 witness: a concrete two-request interleaving in which both
requests read `used_at = null`, request 0 wins the conditional update
and request 1 loses it, applied to the theorem. -/
theorem consumption_at_most_once_witness :
    consumeStatus .alreadyUsedRace = 403 ∧
    proceedsToSynthesis .alreadyUsedRace = false := by
  have t1 : ConsStep (initCons 2) ⟨none, [.readDone none, .start]⟩ :=
    ConsStep.read (initCons 2) 0 rfl
  have t2 : ConsStep ⟨none, [.readDone none, .start]⟩
      ⟨none, [.readDone none, .readDone none]⟩ :=
    ConsStep.read ⟨none, [.readDone none, .start]⟩ 1 rfl
  have t3 : ConsStep ⟨none, [.readDone none, .readDone none]⟩
      ⟨some 5, [.done .success, .readDone none]⟩ :=
    ConsStep.casWin ⟨none, [.readDone none, .readDone none]⟩ 0 5 rfl rfl
  have t4 : ConsStep ⟨some 5, [.done .success, .readDone none]⟩
      ⟨some 5, [.done .success, .done .alreadyUsedRace]⟩ :=
    ConsStep.casLose ⟨some 5, [.done .success, .readDone none]⟩ 1 5 rfl rfl
  have htrace : ConsSteps (initCons 2) ⟨some 5, [.done .success, .done .alreadyUsedRace]⟩ :=
    (((Relation.ReflTransGen.refl.tail t1).tail t2).tail t3).tail t4
  exact (consumption_at_most_once 2 _ htrace).2 1 .alreadyUsedRace rfl (by decide)

/-! ## Pipeline helper lemmas -/

theorem find?_consume_pred {ps : List PaymentRow} {pid uid : String} {pay : PaymentRow}
    (h : ps.find? (paymentMatches pid uid) = some pay) (hused : pay.used_at = none) :
    ps.find? (fun r => paymentMatches pid uid r && r.used_at == none) = some pay := by
  induction ps with
  | nil => simp at h
  | cons a l ih =>
    by_cases hpa : paymentMatches pid uid a
    · rw [List.find?_cons_of_pos l hpa] at h
      have : a = pay := by injection h
      subst this
      exact List.find?_cons_of_pos l (by simp [hpa, hused])
    · rw [List.find?_cons_of_neg l hpa] at h
      rw [List.find?_cons_of_neg l (by simp [hpa])]
      exact ih h

theorem casConsume_eq {ps : List PaymentRow} {pid uid : String} {pay : PaymentRow}
    (h : ps.find? (paymentMatches pid uid) = some pay) (hused : pay.used_at = none)
    (now : Nat) :
    casConsume ps pid uid now =
      (consumedList ps pid uid now,
       some { pay with used_at := some now, updated_at := some now }) := by
  unfold casConsume consumedList
  rw [find?_consume_pred h hused]

theorem consumed_row_mem {ps : List PaymentRow} {pid uid : String} {pay : PaymentRow}
    (h : ps.find? (paymentMatches pid uid) = some pay) (hused : pay.used_at = none)
    (now : Nat) :
    ({ pay with used_at := some now, updated_at := some now } : PaymentRow) ∈
      consumedList ps pid uid now := by
  have hmem : pay ∈ ps := List.mem_of_find?_eq_some h
  have hpred : (paymentMatches pid uid pay && pay.used_at == none) = true := by
    simp [List.find?_some h, hused]
  unfold consumedList
  have hmap := List.mem_map_of_mem (fun q =>
    if paymentMatches pid uid q && q.used_at == none then
      { q with used_at := some now, updated_at := some now } else q) hmem
  simpa [hpred] using hmap

theorem genPOST_of_validate_error {env : GenEnv} {ps : List PaymentRow}
    {pk : List PackageRow} {emo tpo pio : Option String} {o : GenOutcome}
    (h : validateGen env ps emo tpo pio = .error o) :
    genPOST env ps pk emo tpo pio = (o, ps, pk) := by
  simp only [genPOST, h]

theorem validateGen_valid {env : GenEnv} {ps : List PaymentRow}
    {em t pid : String} {user : UserRow} {intent : StripeIntent} {pay : PaymentRow}
    (hem : em.length ≠ 0) (ht : topicOK t) (hp : pidOK pid)
    (hu : findUser env.users em = some user)
    (hi : retrieveIntent env.intents pid = some intent)
    (hs : intent.status = "succeeded")
    (ha : intent.amount = EXPECTED_AMOUNT)
    (hc : strToLower intent.currency = "gbp")
    (hcust : intent.customer = user.stripe_customer_id)
    (hfind : ps.find? (paymentMatches pid user.id) = some pay)
    (hused : pay.used_at = none) :
    validateGen env ps (some em) (some t) (some pid) =
      .ok ⟨em, strTrim t, pid, user, intent, pay⟩ := by
  obtain ⟨ht0, ht1, ht2⟩ := ht
  have hp' : ¬(pid.length = 0 ∨ pid.length > 255) := hp
  simp only [validateGen]
  rw [if_neg hem, if_neg ht0, if_neg ht1, if_neg ht2, if_neg hp', hu, hi]
  simp only [hs, ne_eq]
  rw [if_neg (by simp)]
  simp only [ha, hc, hcust]
  rw [if_neg (by simp), if_neg (by simp), if_neg (by simp), hfind]
  simp [hused]

theorem genPOST_valid {env : GenEnv} {ps : List PaymentRow} (pk : List PackageRow)
    {em t pid : String} {user : UserRow} {intent : StripeIntent} {pay : PaymentRow}
    (hem : em.length ≠ 0) (ht : topicOK t) (hp : pidOK pid)
    (hu : findUser env.users em = some user)
    (hi : retrieveIntent env.intents pid = some intent)
    (hs : intent.status = "succeeded")
    (ha : intent.amount = EXPECTED_AMOUNT)
    (hc : strToLower intent.currency = "gbp")
    (hcust : intent.customer = user.stripe_customer_id)
    (hfind : ps.find? (paymentMatches pid user.id) = some pay)
    (hused : pay.used_at = none)
    (hstat : pay.status = "succeeded") :
    genPOST env ps pk (some em) (some t) (some pid) =
      match synthPhase env (strTrim t) with
      | .error e => (.generationFailed e, consumedList ps pid user.id env.now, pk)
      | .ok files =>
        (.success files, consumedList ps pid user.id env.now,
         insertPackage env (consumedList ps pid user.id env.now) pk
           ⟨em, strTrim t, pid, user, intent, pay⟩ files) := by
  have hv := validateGen_valid hem ht hp hu hi hs ha hc hcust hfind hused
  simp only [genPOST, hv]
  rw [if_neg (by simp [hstat])]
  rw [casConsume_eq hfind hused env.now]

/-! ## C3 -/

/-- C3: audio is mandatory, images are optional. For a fully validated
request whose consumption update has succeeded: if the audio-synthesis
call throws, the whole request fails with the 500 `generationFailed`
outcome while the payment row stays consumed (no rollback); if only
image synthesis throws, the request still succeeds and returns a package
whose image list is empty, surfacing no error. -/
theorem audio_mandatory_images_optional
    (env : GenEnv) (ps : List PaymentRow) (pk : List PackageRow)
    (em t pid : String) (user : UserRow) (intent : StripeIntent) (pay : PaymentRow)
    (c : ContentData) (pb : Buf)
    (hem : em.length ≠ 0) (ht : topicOK t) (hp : pidOK pid)
    (hu : findUser env.users em = some user)
    (hi : retrieveIntent env.intents pid = some intent)
    (hs : intent.status = "succeeded") (ha : intent.amount = EXPECTED_AMOUNT)
    (hc : strToLower intent.currency = "gbp")
    (hcust : intent.customer = user.stripe_customer_id)
    (hfind : ps.find? (paymentMatches pid user.id) = some pay)
    (hused : pay.used_at = none) (hstat : pay.status = "succeeded")
    (hcontent : env.contentRes = .ok c) (hppt : env.pptRes = .ok pb) :
    (∀ e, env.audioRes = .error e →
      (genPOST env ps pk (some em) (some t) (some pid)).1 = .generationFailed e ∧
      genStatus (genPOST env ps pk (some em) (some t) (some pid)).1 = 500 ∧
      ({ pay with used_at := some env.now, updated_at := some env.now } : PaymentRow) ∈
        (genPOST env ps pk (some em) (some t) (some pid)).2.1) ∧
    (∀ (ab wb anb : Buf) (ie : String), env.audioRes = .ok ab →
      env.worksheetRes = .ok wb → env.answersRes = .ok anb →
      env.imagesRes = .error ie →
      ∃ files, (genPOST env ps pk (some em) (some t) (some pid)).1 = .success files ∧
        files.images = []) := by
  have hmain := genPOST_valid pk hem ht hp hu hi hs ha hc hcust hfind hused hstat
  constructor
  · intro e he
    have hsynth : synthPhase env (strTrim t) = .error e := by
      simp only [synthPhase, hcontent, hppt, he]
    rw [hmain]
    simp only [hsynth]
    exact ⟨trivial, rfl, consumed_row_mem hfind hused env.now⟩
  · intro ab wb anb ie hab hwb hanb hie
    have hsynth : synthPhase env (strTrim t) =
        .ok { presentation := makeFileId (strTrim t) env.now ++ ".pptx"
              audio := makeFileId (strTrim t) env.now ++ ".mp3"
              worksheet := makeFileId (strTrim t) env.now ++ "_worksheet.docx"
              answerSheet := makeFileId (strTrim t) env.now ++ "_answers.pdf"
              images := [] } := by
      simp only [synthPhase, hcontent, hppt, hab, hwb, hanb, hie]
    rw [hmain]
    simp only [hsynth]
    exact ⟨_, rfl, rfl⟩

/-- C3 witness: the theorem applied at concrete audio-failure and
image-failure environments. -/
theorem audio_mandatory_images_optional_witness :
    (genPOST { demoGenEnv (demoIntent 100 "gbp") with audioRes := .error "tts down" }
        [demoPayment] [] (some "a@b.com") (some "history of rome") (some "pi_1")).1 =
      .generationFailed "tts down" ∧
    (∃ files,
      (genPOST { demoGenEnv (demoIntent 100 "gbp") with imagesRes := .error "imgs down" }
          [demoPayment] [] (some "a@b.com") (some "history of rome") (some "pi_1")).1 =
        .success files ∧ files.images = []) := by
  constructor
  · exact ((audio_mandatory_images_optional
      { demoGenEnv (demoIntent 100 "gbp") with audioRes := .error "tts down" }
      [demoPayment] [] "a@b.com" "history of rome" "pi_1" demoUser
      (demoIntent 100 "gbp") demoPayment ⟨"slides", "script", "questions"⟩ "pptbuf"
      (by decide) (by decide) (by decide)
      (by decide) (by decide) (by decide) (by decide) (by decide) (by decide)
      (by decide) (by decide) (by decide) rfl rfl).1 "tts down" rfl).1
  · exact (audio_mandatory_images_optional
      { demoGenEnv (demoIntent 100 "gbp") with imagesRes := .error "imgs down" }
      [demoPayment] [] "a@b.com" "history of rome" "pi_1" demoUser
      (demoIntent 100 "gbp") demoPayment ⟨"slides", "script", "questions"⟩ "pptbuf"
      (by decide) (by decide) (by decide)
      (by decide) (by decide) (by decide) (by decide) (by decide) (by decide)
      (by decide) (by decide) (by decide) rfl rfl).2
      "mp3buf" "wsbuf" "ansbuf" "imgs down" rfl rfl rfl rfl

/-! ## C8 -/

/-- C8: when every artifact has been produced, a failing package-record
insert is swallowed: the request still returns the success outcome with
the full artifact map, and only the packages table is left unchanged. -/
theorem package_insert_failure_still_success
    (env : GenEnv) (ps : List PaymentRow) (pk : List PackageRow)
    (em t pid : String) (user : UserRow) (intent : StripeIntent) (pay : PaymentRow)
    (c : ContentData) (pb ab wb anb : Buf) (bufs : List Buf) (ie : String)
    (hem : em.length ≠ 0) (ht : topicOK t) (hp : pidOK pid)
    (hu : findUser env.users em = some user)
    (hi : retrieveIntent env.intents pid = some intent)
    (hs : intent.status = "succeeded") (ha : intent.amount = EXPECTED_AMOUNT)
    (hc : strToLower intent.currency = "gbp")
    (hcust : intent.customer = user.stripe_customer_id)
    (hfind : ps.find? (paymentMatches pid user.id) = some pay)
    (hused : pay.used_at = none) (hstat : pay.status = "succeeded")
    (hcontent : env.contentRes = .ok c) (hppt : env.pptRes = .ok pb)
    (hab : env.audioRes = .ok ab) (hwb : env.worksheetRes = .ok wb)
    (hanb : env.answersRes = .ok anb) (himgs : env.imagesRes = .ok bufs)
    (hins : env.insertRes = .error ie) :
    (genPOST env ps pk (some em) (some t) (some pid)).1 =
      .success { presentation := makeFileId (strTrim t) env.now ++ ".pptx"
                 audio := makeFileId (strTrim t) env.now ++ ".mp3"
                 worksheet := makeFileId (strTrim t) env.now ++ "_worksheet.docx"
                 answerSheet := makeFileId (strTrim t) env.now ++ "_answers.pdf"
                 images := imageNames (makeFileId (strTrim t) env.now) bufs.length } ∧
    (genPOST env ps pk (some em) (some t) (some pid)).2.2 = pk := by
  have hmain := genPOST_valid pk hem ht hp hu hi hs ha hc hcust hfind hused hstat
  have hsynth : synthPhase env (strTrim t) =
      .ok { presentation := makeFileId (strTrim t) env.now ++ ".pptx"
            audio := makeFileId (strTrim t) env.now ++ ".mp3"
            worksheet := makeFileId (strTrim t) env.now ++ "_worksheet.docx"
            answerSheet := makeFileId (strTrim t) env.now ++ "_answers.pdf"
            images := imageNames (makeFileId (strTrim t) env.now) bufs.length } := by
    simp only [synthPhase, hcontent, hppt, hab, hwb, hanb, himgs]
  rw [hmain]
  simp only [hsynth]
  exact ⟨trivial, by simp only [insertPackage, hins]⟩

/-- C8 witness: the theorem applied at a concrete environment whose
package insert fails. -/
theorem package_insert_failure_still_success_witness :
    (genPOST { demoGenEnv (demoIntent 100 "gbp") with insertRes := .error "db down" }
        [demoPayment] [] (some "a@b.com") (some "history of rome") (some "pi_1")).1 =
      .success { presentation := "history_of_rome_7.pptx"
                 audio := "history_of_rome_7.mp3"
                 worksheet := "history_of_rome_7_worksheet.docx"
                 answerSheet := "history_of_rome_7_answers.pdf"
                 images := ["history_of_rome_7_image_1.png"] } ∧
    (genPOST { demoGenEnv (demoIntent 100 "gbp") with insertRes := .error "db down" }
        [demoPayment] [] (some "a@b.com") (some "history of rome") (some "pi_1")).2.2 =
      ([] : List PackageRow) := by
  have h := package_insert_failure_still_success
    { demoGenEnv (demoIntent 100 "gbp") with insertRes := .error "db down" }
    [demoPayment] [] "a@b.com" "history of rome" "pi_1" demoUser
    (demoIntent 100 "gbp") demoPayment ⟨"slides", "script", "questions"⟩
    "pptbuf" "mp3buf" "wsbuf" "ansbuf" ["img1"] "db down"
    (by decide) (by decide) (by decide)
    (by decide) (by decide) (by decide) (by decide) (by decide) (by decide)
    (by decide) (by decide) (by decide) rfl rfl rfl rfl rfl rfl rfl
  exact ⟨by rw [h.1]; decide, h.2⟩

/-! ## C2 -/

/-- C2: every validation failure of steps 1–7 (topic guards,
payment-reference guards, user lookup, ledger retrieve/status,
amount/currency, billing customer, local payment row) returns its
corresponding error with the payments and packages tables unchanged —
in particular `used_at` stays null — and a subsequent fully valid
request over the same unchanged tables succeeds. -/
theorem validation_failure_no_consumption
    (env : GenEnv) (ps : List PaymentRow) (pk : List PackageRow)
    (em t pid : String) (hem : em.length ≠ 0) :
    ((strTrim t).length = 0 →
      genPOST env ps pk (some em) (some t) (some pid) = (.topicRequired, ps, pk)) ∧
    ((strTrim t).length > 500 →
      genPOST env ps pk (some em) (some t) (some pid) = (.topicTooLong, ps, pk)) ∧
    ((strTrim t).length ≠ 0 → ¬(strTrim t).length > 500 → (strTrim t).length < 3 →
      genPOST env ps pk (some em) (some t) (some pid) = (.topicTooShort, ps, pk)) ∧
    (topicOK t → (pid.length = 0 ∨ pid.length > 255) →
      genPOST env ps pk (some em) (some t) (some pid) = (.paymentRequired, ps, pk)) ∧
    (topicOK t → pidOK pid → findUser env.users em = none →
      genPOST env ps pk (some em) (some t) (some pid) = (.userNotFound, ps, pk)) ∧
    (∀ user : UserRow, topicOK t → pidOK pid → findUser env.users em = some user →
      retrieveIntent env.intents pid = none →
      genPOST env ps pk (some em) (some t) (some pid) = (.intentNotFound, ps, pk)) ∧
    (∀ (user : UserRow) (intent : StripeIntent), topicOK t → pidOK pid →
      findUser env.users em = some user →
      retrieveIntent env.intents pid = some intent →
      intent.status ≠ "succeeded" →
      genPOST env ps pk (some em) (some t) (some pid) = (.paymentNotCompleted, ps, pk)) ∧
    (∀ (user : UserRow) (intent : StripeIntent), topicOK t → pidOK pid →
      findUser env.users em = some user →
      retrieveIntent env.intents pid = some intent →
      intent.status = "succeeded" → intent.amount ≠ EXPECTED_AMOUNT →
      genPOST env ps pk (some em) (some t) (some pid) = (.invalidAmount, ps, pk)) ∧
    (∀ (user : UserRow) (intent : StripeIntent), topicOK t → pidOK pid →
      findUser env.users em = some user →
      retrieveIntent env.intents pid = some intent →
      intent.status = "succeeded" → intent.amount = EXPECTED_AMOUNT →
      strToLower intent.currency ≠ "gbp" →
      genPOST env ps pk (some em) (some t) (some pid) = (.invalidCurrency, ps, pk)) ∧
    (∀ (user : UserRow) (intent : StripeIntent), topicOK t → pidOK pid →
      findUser env.users em = some user →
      retrieveIntent env.intents pid = some intent →
      intent.status = "succeeded" → intent.amount = EXPECTED_AMOUNT →
      strToLower intent.currency = "gbp" →
      intent.customer ≠ user.stripe_customer_id →
      genPOST env ps pk (some em) (some t) (some pid) = (.customerMismatch, ps, pk)) ∧
    (∀ (user : UserRow) (intent : StripeIntent), topicOK t → pidOK pid →
      findUser env.users em = some user →
      retrieveIntent env.intents pid = some intent →
      intent.status = "succeeded" → intent.amount = EXPECTED_AMOUNT →
      strToLower intent.currency = "gbp" →
      intent.customer = user.stripe_customer_id →
      ps.find? (paymentMatches pid user.id) = none →
      genPOST env ps pk (some em) (some t) (some pid) = (.paymentRowMissing, ps, pk)) ∧
    (∀ (user : UserRow) (intent : StripeIntent) (pay : PaymentRow)
      (c : ContentData) (pb ab wb anb : Buf), topicOK t → pidOK pid →
      findUser env.users em = some user →
      retrieveIntent env.intents pid = some intent →
      intent.status = "succeeded" → intent.amount = EXPECTED_AMOUNT →
      strToLower intent.currency = "gbp" →
      intent.customer = user.stripe_customer_id →
      ps.find? (paymentMatches pid user.id) = some pay →
      pay.used_at = none → pay.status = "succeeded" →
      env.contentRes = .ok c → env.pptRes = .ok pb → env.audioRes = .ok ab →
      env.worksheetRes = .ok wb → env.answersRes = .ok anb →
      ∃ files, (genPOST env ps pk (some em) (some t) (some pid)).1 = .success files) := by
  refine ⟨?_, ?_, ?_, ?_, ?_, ?_, ?_, ?_, ?_, ?_, ?_, ?_⟩
  · intro h1
    exact genPOST_of_validate_error (by simp [validateGen, hem, h1])
  · intro h2
    have h0 : ¬(strTrim t).length = 0 := by omega
    exact genPOST_of_validate_error (by simp [validateGen, hem, h0, h2])
  · intro h0 h1 h2
    exact genPOST_of_validate_error (by simp [validateGen, hem, h0, h1, h2])
  · intro ht hbad
    obtain ⟨h0, h1, h2⟩ := ht
    exact genPOST_of_validate_error (by simp [validateGen, hem, h0, h1, h2, hbad])
  · intro ht hp hnone
    obtain ⟨h0, h1, h2⟩ := ht
    have hp' : ¬(pid.length = 0 ∨ pid.length > 255) := hp
    exact genPOST_of_validate_error
      (by simp [validateGen, hem, h0, h1, h2, hp', hnone])
  · intro user ht hp hu hno
    obtain ⟨h0, h1, h2⟩ := ht
    have hp' : ¬(pid.length = 0 ∨ pid.length > 255) := hp
    exact genPOST_of_validate_error
      (by simp [validateGen, hem, h0, h1, h2, hp', hu, hno])
  · intro user intent ht hp hu hi hst
    obtain ⟨h0, h1, h2⟩ := ht
    have hp' : ¬(pid.length = 0 ∨ pid.length > 255) := hp
    exact genPOST_of_validate_error
      (by simp [validateGen, hem, h0, h1, h2, hp', hu, hi, hst])
  · intro user intent ht hp hu hi hst hA
    obtain ⟨h0, h1, h2⟩ := ht
    have hp' : ¬(pid.length = 0 ∨ pid.length > 255) := hp
    exact genPOST_of_validate_error
      (by simp [validateGen, hem, h0, h1, h2, hp', hu, hi, hst, hA])
  · intro user intent ht hp hu hi hst hA hC
    obtain ⟨h0, h1, h2⟩ := ht
    have hp' : ¬(pid.length = 0 ∨ pid.length > 255) := hp
    exact genPOST_of_validate_error
      (by simp [validateGen, hem, h0, h1, h2, hp', hu, hi, hst, hA, hC])
  · intro user intent ht hp hu hi hst hA hC hcust
    obtain ⟨h0, h1, h2⟩ := ht
    have hp' : ¬(pid.length = 0 ∨ pid.length > 255) := hp
    exact genPOST_of_validate_error
      (by simp [validateGen, hem, h0, h1, h2, hp', hu, hi, hst, hA, hC, hcust])
  · intro user intent ht hp hu hi hst hA hC hcust hfind
    obtain ⟨h0, h1, h2⟩ := ht
    have hp' : ¬(pid.length = 0 ∨ pid.length > 255) := hp
    exact genPOST_of_validate_error
      (by simp [validateGen, hem, h0, h1, h2, hp', hu, hi, hst, hA, hC, hcust, hfind])
  · intro user intent pay c pb ab wb anb ht hp hu hi hst hA hC hcust hfind hused
      hstat hcontent hppt hab hwb hanb
    have hmain := genPOST_valid pk hem ht hp hu hi hst hA hC hcust hfind hused hstat
    rw [hmain]
    cases himg : env.imagesRes with
    | error ie =>
      have hsynth : synthPhase env (strTrim t) =
          .ok { presentation := makeFileId (strTrim t) env.now ++ ".pptx"
                audio := makeFileId (strTrim t) env.now ++ ".mp3"
                worksheet := makeFileId (strTrim t) env.now ++ "_worksheet.docx"
                answerSheet := makeFileId (strTrim t) env.now ++ "_answers.pdf"
                images := [] } := by
        simp only [synthPhase, hcontent, hppt, hab, hwb, hanb, himg]
      simp only [hsynth]
      exact ⟨_, rfl⟩
    | ok bufs =>
      have hsynth : synthPhase env (strTrim t) =
          .ok { presentation := makeFileId (strTrim t) env.now ++ ".pptx"
                audio := makeFileId (strTrim t) env.now ++ ".mp3"
                worksheet := makeFileId (strTrim t) env.now ++ "_worksheet.docx"
                answerSheet := makeFileId (strTrim t) env.now ++ "_answers.pdf"
                images := imageNames (makeFileId (strTrim t) env.now) bufs.length } := by
        simp only [synthPhase, hcontent, hppt, hab, hwb, hanb, himg]
      simp only [hsynth]
      exact ⟨_, rfl⟩

set_option maxRecDepth 8192 in
/-- C2 witness: each validation-failure conjunct of the theorem applied
at a concrete request exhibiting exactly that failure, plus the valid
retry succeeding. -/
theorem validation_failure_no_consumption_witness :
    genPOST (demoGenEnv (demoIntent 100 "gbp")) [demoPayment] []
      (some "a@b.com") (some "  ") (some "pi_1") = (.topicRequired, [demoPayment], []) ∧
    genPOST (demoGenEnv (demoIntent 100 "gbp")) [demoPayment] []
      (some "a@b.com") (some (String.mk (List.replicate 501 'a'))) (some "pi_1") =
        (.topicTooLong, [demoPayment], []) ∧
    genPOST (demoGenEnv (demoIntent 100 "gbp")) [demoPayment] []
      (some "a@b.com") (some "hi") (some "pi_1") = (.topicTooShort, [demoPayment], []) ∧
    genPOST (demoGenEnv (demoIntent 100 "gbp")) [demoPayment] []
      (some "a@b.com") (some "history of rome") (some "") =
        (.paymentRequired, [demoPayment], []) ∧
    genPOST (demoGenEnv (demoIntent 100 "gbp")) [demoPayment] []
      (some "ghost@b.com") (some "history of rome") (some "pi_1") =
        (.userNotFound, [demoPayment], []) ∧
    genPOST (demoGenEnv (demoIntent 100 "gbp")) [demoPayment] []
      (some "a@b.com") (some "history of rome") (some "pi_zzz") =
        (.intentNotFound, [demoPayment], []) ∧
    genPOST (demoGenEnv ⟨"processing", 100, "gbp", some "cus_1"⟩) [demoPayment] []
      (some "a@b.com") (some "history of rome") (some "pi_1") =
        (.paymentNotCompleted, [demoPayment], []) ∧
    genPOST (demoGenEnv (demoIntent 300 "gbp")) [demoPayment] []
      (some "a@b.com") (some "history of rome") (some "pi_1") =
        (.invalidAmount, [demoPayment], []) ∧
    genPOST (demoGenEnv (demoIntent 100 "eur")) [demoPayment] []
      (some "a@b.com") (some "history of rome") (some "pi_1") =
        (.invalidCurrency, [demoPayment], []) ∧
    genPOST (demoGenEnv ⟨"succeeded", 100, "gbp", some "cus_other"⟩) [demoPayment] []
      (some "a@b.com") (some "history of rome") (some "pi_1") =
        (.customerMismatch, [demoPayment], []) ∧
    genPOST (demoGenEnv (demoIntent 100 "gbp")) [] []
      (some "a@b.com") (some "history of rome") (some "pi_1") =
        (.paymentRowMissing, [], []) ∧
    (∃ files, (genPOST (demoGenEnv (demoIntent 100 "gbp")) [demoPayment] []
      (some "a@b.com") (some "history of rome") (some "pi_1")).1 = .success files) := by
  refine ⟨?_, ?_, ?_, ?_, ?_, ?_, ?_, ?_, ?_, ?_, ?_, ?_⟩
  · exact (validation_failure_no_consumption (demoGenEnv (demoIntent 100 "gbp"))
      [demoPayment] [] "a@b.com" "  " "pi_1" (by decide)).1 (by decide)
  · exact (validation_failure_no_consumption (demoGenEnv (demoIntent 100 "gbp"))
      [demoPayment] [] "a@b.com" (String.mk (List.replicate 501 'a')) "pi_1"
      (by decide)).2.1 (by decide)
  · exact (validation_failure_no_consumption (demoGenEnv (demoIntent 100 "gbp"))
      [demoPayment] [] "a@b.com" "hi" "pi_1" (by decide)).2.2.1
      (by decide) (by decide) (by decide)
  · exact (validation_failure_no_consumption (demoGenEnv (demoIntent 100 "gbp"))
      [demoPayment] [] "a@b.com" "history of rome" "" (by decide)).2.2.2.1
      (by decide) (by decide)
  · exact (validation_failure_no_consumption (demoGenEnv (demoIntent 100 "gbp"))
      [demoPayment] [] "ghost@b.com" "history of rome" "pi_1" (by decide)).2.2.2.2.1
      (by decide) (by decide) (by decide)
  · exact (validation_failure_no_consumption (demoGenEnv (demoIntent 100 "gbp"))
      [demoPayment] [] "a@b.com" "history of rome" "pi_zzz" (by decide)).2.2.2.2.2.1
      demoUser (by decide) (by decide) (by decide) (by decide)
  · exact (validation_failure_no_consumption
      (demoGenEnv ⟨"processing", 100, "gbp", some "cus_1"⟩)
      [demoPayment] [] "a@b.com" "history of rome" "pi_1" (by decide)).2.2.2.2.2.2.1
      demoUser ⟨"processing", 100, "gbp", some "cus_1"⟩ (by decide) (by decide)
      (by decide) (by decide) (by decide)
  · exact (validation_failure_no_consumption (demoGenEnv (demoIntent 300 "gbp"))
      [demoPayment] [] "a@b.com" "history of rome" "pi_1"
      (by decide)).2.2.2.2.2.2.2.1
      demoUser (demoIntent 300 "gbp") (by decide) (by decide) (by decide)
      (by decide) (by decide) (by decide)
  · exact (validation_failure_no_consumption (demoGenEnv (demoIntent 100 "eur"))
      [demoPayment] [] "a@b.com" "history of rome" "pi_1"
      (by decide)).2.2.2.2.2.2.2.2.1
      demoUser (demoIntent 100 "eur") (by decide) (by decide) (by decide)
      (by decide) (by decide) (by decide) (by decide)
  · exact (validation_failure_no_consumption
      (demoGenEnv ⟨"succeeded", 100, "gbp", some "cus_other"⟩)
      [demoPayment] [] "a@b.com" "history of rome" "pi_1"
      (by decide)).2.2.2.2.2.2.2.2.2.1
      demoUser ⟨"succeeded", 100, "gbp", some "cus_other"⟩ (by decide) (by decide)
      (by decide) (by decide) (by decide) (by decide) (by decide) (by decide)
  · exact (validation_failure_no_consumption (demoGenEnv (demoIntent 100 "gbp"))
      [] [] "a@b.com" "history of rome" "pi_1"
      (by decide)).2.2.2.2.2.2.2.2.2.2.1
      demoUser (demoIntent 100 "gbp") (by decide) (by decide) (by decide)
      (by decide) (by decide) (by decide) (by decide) (by decide) (by decide)
  · exact (validation_failure_no_consumption (demoGenEnv (demoIntent 100 "gbp"))
      [demoPayment] [] "a@b.com" "history of rome" "pi_1"
      (by decide)).2.2.2.2.2.2.2.2.2.2.2
      demoUser (demoIntent 100 "gbp") demoPayment
      ⟨"slides", "script", "questions"⟩ "pptbuf" "mp3buf" "wsbuf" "ansbuf"
      (by decide) (by decide) (by decide) (by decide) (by decide) (by decide)
      (by decide) (by decide) (by decide) (by decide) (by decide) rfl rfl rfl rfl rfl

/-! ## C9 -/

theorem validateGen_never_amount_currency {env : GenEnv} {ps : List PaymentRow}
    {emO tO : Option String} {pid : String} {intent : StripeIntent}
    (hre : retrieveIntent env.intents pid = some intent)
    (ha : intent.amount = EXPECTED_AMOUNT)
    (hc : strToLower intent.currency = "gbp") :
    ∀ o : GenOutcome, validateGen env ps emO tO (some pid) = .error o →
      o ≠ .invalidAmount ∧ o ≠ .invalidCurrency := by
  intro o hbad
  cases emO with
  | none =>
    simp [validateGen] at hbad
    subst hbad; decide
  | some em =>
    by_cases h1 : em.length = 0
    · simp [validateGen, h1] at hbad
      subst hbad; decide
    · cases tO with
      | none =>
        simp [validateGen, h1] at hbad
        subst hbad; decide
      | some t =>
        by_cases h2 : (strTrim t).length = 0
        · simp [validateGen, h1, h2] at hbad
          subst hbad; decide
        · by_cases h3 : (strTrim t).length > 500
          · simp [validateGen, h1, h2, h3] at hbad
            subst hbad; decide
          · by_cases h4 : (strTrim t).length < 3
            · simp [validateGen, h1, h2, h3, h4] at hbad
              subst hbad; decide
            · by_cases h5 : (pid.length = 0 ∨ pid.length > 255)
              · simp [validateGen, h1, h2, h3, h4, h5] at hbad
                subst hbad; decide
              · cases hu : findUser env.users em with
                | none =>
                  simp [validateGen, h1, h2, h3, h4, h5, hu] at hbad
                  subst hbad; decide
                | some user =>
                  by_cases h6 : intent.status = "succeeded"
                  · by_cases h7 : intent.customer = user.stripe_customer_id
                    · cases hf : ps.find? (paymentMatches pid user.id) with
                      | none =>
                        simp [validateGen, h1, h2, h3, h4, h5, hu, hre, h6, h7, hf,
                          ha, hc, EXPECTED_AMOUNT] at hbad
                        subst hbad; decide
                      | some pay =>
                        by_cases h8 : pay.used_at.isSome
                        · simp [validateGen, h1, h2, h3, h4, h5, hu, hre, h6, h7, hf,
                            h8, ha, hc, EXPECTED_AMOUNT] at hbad
                          subst hbad; decide
                        · simp [validateGen, h1, h2, h3, h4, h5, hu, hre, h6, h7, hf,
                            h8, ha, hc, EXPECTED_AMOUNT] at hbad
                    · simp [validateGen, h1, h2, h3, h4, h5, hu, hre, h6, h7,
                        ha, hc, EXPECTED_AMOUNT] at hbad
                      subst hbad; decide
                  · simp [validateGen, h1, h2, h3, h4, h5, hu, hre, h6] at hbad
                    subst hbad; decide

/-- C9: the payment-creation endpoint creates the ledger intent and the
local payment row with amount exactly 100 minor units, currency "gbp"
and (for the row) status "pending" and a null consumption timestamp;
these constants equal the `EXPECTED_AMOUNT` and currency the generation
endpoint verifies, so once such an intent is reported "succeeded" the
generation validation can never fail its amount or currency check. -/
theorem created_payment_passes_amount_currency
    (rid uid pid cid topic : String) :
    (createdPaymentRow rid uid pid cid topic).amount = EXPECTED_AMOUNT ∧
    (createdPaymentRow rid uid pid cid topic).currency = "gbp" ∧
    (createdPaymentRow rid uid pid cid topic).status = "pending" ∧
    (createdPaymentRow rid uid pid cid topic).used_at = none ∧
    (createdIntent cid "succeeded").amount = EXPECTED_AMOUNT ∧
    strToLower (createdIntent cid "succeeded").currency = "gbp" ∧
    (∀ (env : GenEnv) (ps : List PaymentRow) (emO tO : Option String),
      retrieveIntent env.intents pid = some (createdIntent cid "succeeded") →
        validateGen env ps emO tO (some pid) ≠ .error .invalidAmount ∧
        validateGen env ps emO tO (some pid) ≠ .error .invalidCurrency) := by
  refine ⟨rfl, rfl, rfl, rfl, rfl, rfl, ?_⟩
  intro env ps emO tO hre
  constructor
  · intro hbad
    exact (validateGen_never_amount_currency hre rfl rfl _ hbad).1 rfl
  · intro hbad
    exact (validateGen_never_amount_currency hre rfl rfl _ hbad).2 rfl

/-- C9 witness: the theorem applied at concrete identifiers, with the
retrieval hypothesis discharged on a concrete ledger. -/
theorem created_payment_passes_amount_currency_witness :
    (createdPaymentRow "pay9" "u9" "pi_9" "cus_9" "volcanoes").amount = EXPECTED_AMOUNT ∧
    validateGen
      { demoGenEnv (createdIntent "cus_9" "succeeded") with
          intents := [("pi_9", createdIntent "cus_9" "succeeded")] }
      [] (some "a@b.com") (some "volcanoes") (some "pi_9") ≠
        .error .invalidAmount := by
  refine ⟨(created_payment_passes_amount_currency "pay9" "u9" "pi_9" "cus_9" "volcanoes").1, ?_⟩
  exact ((created_payment_passes_amount_currency "pay9" "u9" "pi_9" "cus_9"
    "volcanoes").2.2.2.2.2.2
    { demoGenEnv (createdIntent "cus_9" "succeeded") with
        intents := [("pi_9", createdIntent "cus_9" "succeeded")] }
    [] (some "a@b.com") (some "volcanoes") (by decide)).1

end TeachAnything
